import Mathlib

/-!
Shallow embedding of the accumulation-zone detection core of
`src/scanner/accumulation_detector.py` (functions `calculate_rsi`,
`AccumulationDetector.detect_zones`, `AccumulationDetector._finalize_zone`)
together with the configuration record of `src/scanner/config.py`.

Real-number arithmetic of the Python source (floats) is modelled over `ℚ`.
The two places where IEEE special values matter are modelled explicitly:

* `pandas` division of a positive number by zero yields `+inf`, and
  `100 - 100/(1 + inf) = 100`; division `0/0` yields `NaN`.  The RSI value is
  therefore `100` when the rolling average loss is zero while the average gain
  is positive, and undefined (`none`) when both are zero.
* `df.dropna()` removes exactly the rows whose RSI entry is `NaN`
  (all other columns are finite numbers).

Python's `round(x, n)` is round-half-to-even on the scaled value; it is
modelled exactly on `ℚ` by `pyRound`.
-/

namespace BistScanner

/-- Configuration dictionary as produced by `ScannerConfig.to_dict`
(`src/scanner/config.py`).  Candle counts are integers, all thresholds are
real-valued. -/
structure Config where
  max_link_diff : ℚ
  max_body_diff : ℚ
  max_total_zone_diff : ℚ
  min_candle_count : ℕ
  rsi_length : ℕ
  rsi_max_limit : ℚ
  score_diff_min : ℚ
  score_rsi_min : ℚ
  score_rsi_max : ℚ
  score_candle_max : ℕ
  min_score : ℚ
  deriving DecidableEq, Repr

/-- One input candle: a row of the `DataFrame` handed to `detect_zones`
(columns `Date, Open, High, Low, Close, Volume`).  Dates are abstracted to
integers (only their identity and order matter). -/
structure Candle where
  Date : ℤ
  Open : ℚ
  High : ℚ
  Low : ℚ
  Close : ℚ
  Volume : ℚ
  deriving DecidableEq, Repr

/-- A row of the working `DataFrame` after the `RSI`, `BodyLow` and
`BodyHigh` columns have been added and `NaN` rows dropped
(`detect_zones`, lines 115-129). -/
structure Row where
  Date : ℤ
  Open : ℚ
  Close : ℚ
  RSI : ℚ
  BodyLow : ℚ
  BodyHigh : ℚ
  deriving DecidableEq, Repr

instance : Inhabited Row := ⟨⟨0, 0, 0, 0, 0, 0⟩⟩

/-! ### Python rounding

`round(x, n)` in Python uses round-half-to-even. -/

/-- Round a rational to the nearest integer, ties to even
(Python's `round`). -/
def roundHalfEven (x : ℚ) : ℤ :=
  let f := ⌊x⌋
  let r := x - f
  if r < 1/2 then f
  else if 1/2 < r then f + 1
  else if f % 2 = 0 then f else f + 1

/-- `round(x, n)` of Python, exactly on `ℚ`. -/
def pyRound (x : ℚ) (n : ℕ) : ℚ :=
  (roundHalfEven (x * 10 ^ n) : ℚ) / 10 ^ n

/-! ### `calculate_rsi` (lines 14-35)

The `pandas` pipeline is vectorised; it is embedded pointwise.
`delta = series.diff()` is `NaN` at index 0; `delta.where(delta > 0, 0)`
replaces every position where the condition fails (including the `NaN` at
index 0, since `NaN > 0` is false) by `0`, and `.fillna(0)` keeps that `0`.
Hence `gain 0 = loss 0 = 0` are genuine numeric values. -/

/-- `gain = (delta.where(delta > 0, 0)).fillna(0)` at index `i`. -/
def gain_at (closes : List ℚ) (i : ℕ) : ℚ :=
  if i = 0 then 0 else max (closes.getD i 0 - closes.getD (i - 1) 0) 0

/-- `loss = (-delta.where(delta < 0, 0)).fillna(0)` at index `i`. -/
def loss_at (closes : List ℚ) (i : ℕ) : ℚ :=
  if i = 0 then 0 else max (closes.getD (i - 1) 0 - closes.getD i 0) 0

/-- Mean of the window of `period` values ending at index `i`
(`rolling(window=period, min_periods=period).mean()`); meaningful once
`period ≤ i + 1`. -/
def window_mean (f : ℕ → ℚ) (period i : ℕ) : ℚ :=
  (((List.range period).map fun k => f (i - k)).sum) / period

/-- `avg_gain` at index `i` (a number once the window is full). -/
def avg_gain_at (closes : List ℚ) (period i : ℕ) : ℚ :=
  window_mean (gain_at closes) period i

/-- `avg_loss` at index `i`. -/
def avg_loss_at (closes : List ℚ) (period i : ℕ) : ℚ :=
  window_mean (loss_at closes) period i

/-- RSI value at index `i`: `none` models `NaN`.  The window is `NaN` while
`i + 1 < period`; with a full window, `rs = avg_gain / avg_loss` is `NaN`
when `0/0` (value dropped later) and `+inf` when `avg_gain > 0, avg_loss = 0`,
in which case `100 - 100/(1 + rs) = 100`. -/
def rsi_at (closes : List ℚ) (period i : ℕ) : Option ℚ :=
  if i + 1 < period then none
  else
    let g := avg_gain_at closes period i
    let l := avg_loss_at closes period i
    if l = 0 then
      if g = 0 then none else some 100
    else
      some (100 - 100 / (1 + g / l))

/-- `calculate_rsi(series, period)`: the whole RSI column. -/
def calculate_rsi (closes : List ℚ) (period : ℕ) : List (Option ℚ) :=
  (List.range closes.length).map (rsi_at closes period)

/-! ### Zone data structures -/

/-- The scanner's transient candidate (`zone_data` dictionary,
`detect_zones` lines 157-163). -/
structure ZoneData where
  start_idx : ℕ
  candles : List ℕ
  highest_body : ℚ
  lowest_body : ℚ
  rsi_values : List ℚ
  deriving DecidableEq, Repr

/-- The engine output (`AccumulationZone`, lines 38-67).  `status` is one of
the strings `"active"`, `"completed"` (the core never produces
`"broken"`). -/
structure Zone where
  ticker : String
  start_date : ℤ
  end_date : ℤ
  candle_count : ℕ
  score : ℚ
  total_diff_percent : ℚ
  avg_rsi : ℚ
  highest_body : ℚ
  lowest_body : ℚ
  status : String
  deriving DecidableEq, Repr

instance : Inhabited Zone := ⟨⟨"", 0, 0, 0, 0, 0, 0, 0, 0, ""⟩⟩

/-! ### `_finalize_zone` (lines 216-288) -/

/-- Compression sub-score (lines 246-250): computed, then clamped to
`[0, 33.33]`. -/
def compression_score (cfg : Config) (total_diff_percent : ℚ) : ℚ :=
  max 0 (min 33.33 (33.33 *
    ((cfg.max_total_zone_diff - total_diff_percent) /
     (cfg.max_total_zone_diff - cfg.score_diff_min))))

/-- RSI sub-score (lines 254-258). -/
def rsi_score (cfg : Config) (avg_rsi : ℚ) : ℚ :=
  max 0 (min 33.33 (33.33 *
    ((cfg.score_rsi_max - avg_rsi) /
     (cfg.score_rsi_max - cfg.score_rsi_min))))

/-- Duration sub-score (lines 262-266).  The counts are Python integers;
the subtraction is over `ℤ` (cast into `ℚ`), not truncated. -/
def duration_score (cfg : Config) (candle_count : ℕ) : ℚ :=
  max 0 (min 33.33 (33.33 *
    (((candle_count : ℚ) - (cfg.min_candle_count : ℚ)) /
     ((cfg.score_candle_max : ℚ) - (cfg.min_candle_count : ℚ)))))

/-- Raw (unrounded) total zone width in percent (lines 236-237). -/
def raw_total_diff_percent (zd : ZoneData) : ℚ :=
  if zd.lowest_body ≠ 0 then
    (zd.highest_body - zd.lowest_body) / zd.lowest_body * 100
  else 0

/-- Raw (unrounded) average RSI of the candidate (line 240). -/
def raw_avg_rsi (zd : ZoneData) : ℚ :=
  zd.rsi_values.sum / (zd.rsi_values.length : ℚ)

/-- `_finalize_zone`: `none` iff the candidate has fewer than
`min_candle_count` member candles; otherwise the scored zone. -/
def finalize_zone (cfg : Config) (ticker : String) (zone_data : ZoneData)
    (rows : List Row) (status : String) : Option Zone :=
  let candle_count := zone_data.candles.length
  if candle_count < cfg.min_candle_count then none
  else
    let total_diff_percent := raw_total_diff_percent zone_data
    let avg_rsi := raw_avg_rsi zone_data
    let total_score := compression_score cfg total_diff_percent +
      rsi_score cfg avg_rsi + duration_score cfg candle_count
    let start_idx := zone_data.start_idx
    let end_idx := zone_data.candles.getLast? |>.getD 0
    some
      { ticker := ticker
        start_date := (rows.getD start_idx default).Date
        end_date := (rows.getD end_idx default).Date
        candle_count := candle_count
        score := pyRound total_score 1
        total_diff_percent := pyRound total_diff_percent 2
        avg_rsi := pyRound avg_rsi 1
        highest_body := zone_data.highest_body
        lowest_body := zone_data.lowest_body
        status := status }

/-! ### The per-candle predicates of the scan loop (lines 140-151) -/

/-- `body_diff_percent` at index `i` (lines 141-142). -/
def body_diff_percent (rows : List Row) (i : ℕ) : ℚ :=
  let current := rows.getD i default
  if current.Open ≠ 0 then |current.BodyHigh - current.BodyLow| / current.Open * 100
  else 0

/-- `link_diff_percent` at index `i` (lines 145-146), relative to the close
of the candle at `i - 1`. -/
def link_diff_percent (rows : List Row) (i : ℕ) : ℚ :=
  let current := rows.getD i default
  let prev := rows.getD (i - 1) default
  if prev.Close ≠ 0 then |current.Close - prev.Close| / prev.Close * 100
  else 0

/-- `rsi_ok` (line 149). -/
def rsi_ok (cfg : Config) (rows : List Row) (i : ℕ) : Bool :=
  (rows.getD i default).RSI ≤ cfg.rsi_max_limit

/-- `body_ok` (line 150). -/
def body_ok (cfg : Config) (rows : List Row) (i : ℕ) : Bool :=
  body_diff_percent rows i ≤ cfg.max_body_diff

/-- `link_ok` (line 151). -/
def link_ok (cfg : Config) (rows : List Row) (i : ℕ) : Bool :=
  link_diff_percent rows i ≤ cfg.max_link_diff

/-- Tentative cumulative zone width should candle `i` join the candidate
(lines 168-172). -/
def tentative_range_percent (zd : ZoneData) (rows : List Row) (i : ℕ) : ℚ :=
  let current := rows.getD i default
  let temp_highest := max zd.highest_body current.BodyHigh
  let temp_lowest := min zd.lowest_body current.BodyLow
  if temp_lowest ≠ 0 then (temp_highest - temp_lowest) / temp_lowest * 100
  else 0

/-- `zone_ok`: the extension test (lines 174-175). -/
def zone_ok (cfg : Config) (zd : ZoneData) (rows : List Row) (i : ℕ) : Bool :=
  body_ok cfg rows i && link_ok cfg rows i && rsi_ok cfg rows i &&
    (tentative_range_percent zd rows i ≤ cfg.max_total_zone_diff)

/-- Fresh candidate seeded with only candle `i` (lines 157-163 and
194-200). -/
def start_candidate (rows : List Row) (i : ℕ) : ZoneData :=
  let current := rows.getD i default
  { start_idx := i
    candles := [i]
    highest_body := current.BodyHigh
    lowest_body := current.BodyLow
    rsi_values := [current.RSI] }

/-- Candidate extended with candle `i`, boundary committed
(lines 177-182). -/
def extend_candidate (zd : ZoneData) (rows : List Row) (i : ℕ) : ZoneData :=
  let current := rows.getD i default
  { zd with
    candles := zd.candles ++ [i]
    highest_body := max zd.highest_body current.BodyHigh
    lowest_body := min zd.lowest_body current.BodyLow
    rsi_values := zd.rsi_values ++ [current.RSI] }

/-! ### The scan state machine (lines 132-214) -/

/-- Mutable scan state of the loop: accumulated zones plus the optional
pending candidate (`in_zone`/`zone_data`; `in_zone` is exactly
`zone_data ≠ none`). -/
structure ScanState where
  zones : List Zone
  zone_data : Option ZoneData
  deriving DecidableEq, Repr

/-- Appending a finalized zone subject to the score gate
(lines 186-188 and 209-211): `if zone and zone.score >= self.min_score`. -/
def emit_zone (cfg : Config) (zones : List Zone) (z? : Option Zone) : List Zone :=
  match z? with
  | some z => if cfg.min_score ≤ z.score then zones ++ [z] else zones
  | none => zones

/-- One iteration of the scan loop at index `i` (lines 136-204). -/
def scanStep (cfg : Config) (ticker : String) (rows : List Row)
    (st : ScanState) (i : ℕ) : ScanState :=
  match st.zone_data with
  | none =>
      if body_ok cfg rows i && rsi_ok cfg rows i then
        { st with zone_data := some (start_candidate rows i) }
      else st
  | some zd =>
      if zone_ok cfg zd rows i then
        { st with zone_data := some (extend_candidate zd rows i) }
      else
        let zones' := emit_zone cfg st.zones
          (finalize_zone cfg ticker zd rows "completed")
        if body_ok cfg rows i && rsi_ok cfg rows i then
          { zones := zones', zone_data := some (start_candidate rows i) }
        else
          { zones := zones', zone_data := none }

/-- Working rows of `detect_zones` (lines 112-129): `RSI`, `BodyLow`,
`BodyHigh` columns added, `NaN` rows dropped (only the `RSI` column can be
`NaN`), index reset. -/
def scan_rows (cfg : Config) (df : List Candle) : List Row :=
  (List.range df.length).filterMap fun i =>
    (rsi_at (df.map Candle.Close) cfg.rsi_length i).map fun r =>
      let c := df.getD i ⟨0, 0, 0, 0, 0, 0⟩
      { Date := c.Date
        Open := c.Open
        Close := c.Close
        RSI := r
        BodyLow := min c.Open c.Close
        BodyHigh := max c.Open c.Close }

/-- `AccumulationDetector.detect_zones` (lines 96-214). -/
def detect_zones (cfg : Config) (ticker : String) (df : List Candle) :
    List Zone :=
  if df.length < cfg.min_candle_count + 1 then []
  else
    let rows := scan_rows cfg df
    if rows.length < cfg.min_candle_count + 1 then []
    else
      let final := (List.range' 1 (rows.length - 1)).foldl
        (scanStep cfg ticker rows) ⟨[], none⟩
      match final.zone_data with
      | some zd =>
          emit_zone cfg final.zones (finalize_zone cfg ticker zd rows "active")
      | none => final.zones

/-! ### Vocabulary for the statements -/

/-- The spec's per-zone invariant (§8): minimum candle count, score within
`[0,100]`, nonnegative range, ordered body boundary. -/
def ZoneGood (cfg : Config) (z : Zone) : Prop :=
  cfg.min_candle_count ≤ z.candle_count ∧ 0 ≤ z.score ∧ z.score ≤ 100 ∧
    0 ≤ z.total_diff_percent ∧ z.lowest_body ≤ z.highest_body

/-- Candidate sanity carried through the scan: positive lower boundary and
ordered boundary. -/
def CandGood (zd : ZoneData) : Prop :=
  0 < zd.lowest_body ∧ zd.lowest_body ≤ zd.highest_body

/-- Scan-state invariant: every accumulated zone is good and any pending
candidate is sane. -/
def StateGood (cfg : Config) (st : ScanState) : Prop :=
  (∀ z ∈ st.zones, ZoneGood cfg z) ∧ ∀ zd, st.zone_data = some zd → CandGood zd

/-- The indices a pending candidate refers to stay inside the row list. -/
def IdxGood (rows : List Row) (od : Option ZoneData) : Prop :=
  ∀ zd, od = some zd →
    zd.start_idx < rows.length ∧ zd.candles.getLast?.getD 0 < rows.length

/-- Reassigning a candle's date. -/
def with_date (f : ℤ → ℤ) (c : Candle) : Candle := { c with Date := f c.Date }

/-- Reassigning a working row's date. -/
def row_with_date (f : ℤ → ℤ) (r : Row) : Row := { r with Date := f r.Date }

/-- Reassigning a zone's reported dates. -/
def zone_with_dates (f : ℤ → ℤ) (z : Zone) : Zone :=
  { z with start_date := f z.start_date, end_date := f z.end_date }

/-- The spec's input-ordering precondition: dates strictly increasing along
the sequence. -/
def dates_sorted : List Candle → Bool
  | [] => true
  | [_] => true
  | a :: b :: rest => decide (a.Date < b.Date) && dates_sorted (b :: rest)

/-! ### Concrete inputs used by witnesses and counterexamples -/

/-- Configuration of the spec's worked scenario (§8). -/
def worked_config : Config :=
  { max_link_diff := 3
    max_body_diff := 4
    max_total_zone_diff := 6
    min_candle_count := 4
    rsi_length := 2
    rsi_max_limit := 100
    score_diff_min := 2
    score_rsi_min := 30
    score_rsi_max := 70
    score_candle_max := 20
    min_score := 30 }

/-- A candle whose body spans exactly `[100, 101]`. -/
def worked_candle (d : ℤ) (o c : ℚ) : Candle :=
  { Date := d, Open := o, High := 101, Low := 100, Close := c, Volume := 1 }

/-- The worked scenario's eight candles: closes alternate
`101,100,101,100,101,100,101,100` and every body spans exactly
`[100, 101]`. -/
def worked_input : List Candle :=
  [worked_candle 0 100 101, worked_candle 1 101 100,
   worked_candle 2 100 101, worked_candle 3 101 100,
   worked_candle 4 100 101, worked_candle 5 101 100,
   worked_candle 6 100 101, worked_candle 7 101 100]

/-- The worked scenario's closing prices. -/
def worked_closes : List ℚ := [101, 100, 101, 100, 101, 100, 101, 100]

/-- Three candles only (fewer than `min_candle_count + 1 = 5`). -/
def three_candles : List Candle :=
  [worked_candle 0 100 101, worked_candle 1 101 100, worked_candle 2 100 101]

/-- The worked input with strictly decreasing dates `7,6,...,0`: a sequence
violating the chronological-order precondition. -/
def unsorted_input : List Candle :=
  [worked_candle 7 100 101, worked_candle 6 101 100,
   worked_candle 5 100 101, worked_candle 4 101 100,
   worked_candle 3 100 101, worked_candle 2 101 100,
   worked_candle 1 100 101, worked_candle 0 101 100]

/-- Two rows with a 100% jump between their closes: the second row breaks
any zone through `link_ok` while still passing `body_ok` and `rsi_ok`. -/
def break_rows : List Row :=
  [{ Date := 0, Open := 100, Close := 100, RSI := 50, BodyLow := 100, BodyHigh := 100 },
   { Date := 1, Open := 200, Close := 200, RSI := 50, BodyLow := 200, BodyHigh := 200 }]

/-- A pending candidate holding only row 0 of `break_rows`. -/
def break_cand : ZoneData := start_candidate break_rows 0

/-- A configuration whose compression denominator is negative
(`max_total_zone_diff < score_diff_min`, still unequal, so the spec's
stated scorer precondition holds). -/
def inverted_config : Config :=
  { worked_config with max_total_zone_diff := 2, score_diff_min := 6 }

/-- Five flat rows at price 100 with RSI 50. -/
def flat_rows : List Row :=
  [{ Date := 0, Open := 100, Close := 100, RSI := 50, BodyLow := 100, BodyHigh := 100 },
   { Date := 1, Open := 100, Close := 100, RSI := 50, BodyLow := 100, BodyHigh := 100 },
   { Date := 2, Open := 100, Close := 100, RSI := 50, BodyLow := 100, BodyHigh := 100 },
   { Date := 3, Open := 100, Close := 100, RSI := 50, BodyLow := 100, BodyHigh := 100 },
   { Date := 4, Open := 100, Close := 100, RSI := 50, BodyLow := 100, BodyHigh := 100 }]

/-- A candidate with exactly four member candles (`min_candle_count` of the
worked configuration). -/
def four_cand : ZoneData :=
  { start_idx := 1, candles := [1, 2, 3, 4], highest_body := 100,
    lowest_body := 100, rsi_values := [50, 50, 50, 50] }

/-- A candidate with exactly three member candles
(`min_candle_count - 1`). -/
def three_cand : ZoneData :=
  { start_idx := 1, candles := [1, 2, 3], highest_body := 100,
    lowest_body := 100, rsi_values := [50, 50, 50] }

/-! ## Helper lemmas -/

theorem calculate_rsi_getD (closes : List ℚ) (period i : ℕ)
    (hi : i < closes.length) :
    (calculate_rsi closes period).getD i none = rsi_at closes period i := by
  unfold calculate_rsi
  rw [List.getD_eq_getElem?_getD, List.getElem?_map, List.getElem?_range hi]
  rfl

theorem length_filterMap_option_map {α β γ : Type} (g : α → Option β)
    (h : α → β → γ) (l : List α) :
    (l.filterMap fun a => (g a).map (h a)).length =
      (l.filter fun a => (g a).isSome).length := by
  induction l with
  | nil => rfl
  | cons a l ih => cases hga : g a <;> simp [List.filterMap_cons, hga, ih]

theorem filterMap_congr_mem {α β : Type} {l : List α} {F G : α → Option β}
    (h : ∀ a ∈ l, F a = G a) : l.filterMap F = l.filterMap G := by
  induction l with
  | nil => rfl
  | cons a l ih =>
      rw [List.filterMap_cons, List.filterMap_cons, h a (by simp),
        ih fun b hb => h b (by simp [hb])]

theorem roundHalfEven_eq_floor_or (x : ℚ) :
    roundHalfEven x = ⌊x⌋ ∨ roundHalfEven x = ⌊x⌋ + 1 := by
  simp only [roundHalfEven]
  split_ifs <;> simp

theorem roundHalfEven_nonneg {x : ℚ} (h : 0 ≤ x) : 0 ≤ roundHalfEven x := by
  have hf : (0 : ℤ) ≤ ⌊x⌋ := Int.floor_nonneg.mpr h
  rcases roundHalfEven_eq_floor_or x with h' | h' <;> omega

theorem roundHalfEven_cast_le_add_one (x : ℚ) :
    (roundHalfEven x : ℚ) ≤ x + 1 := by
  have hf : (⌊x⌋ : ℚ) ≤ x := Int.floor_le x
  rcases roundHalfEven_eq_floor_or x with h' | h' <;> rw [h'] <;> push_cast <;>
    linarith

theorem pyRound_nonneg {x : ℚ} (n : ℕ) (h : 0 ≤ x) : 0 ≤ pyRound x n := by
  unfold pyRound
  have h1 : 0 ≤ roundHalfEven (x * 10 ^ n) := roundHalfEven_nonneg (by positivity)
  have h2 : (0 : ℚ) ≤ (roundHalfEven (x * 10 ^ n) : ℚ) := by exact_mod_cast h1
  positivity

theorem pyRound_le_100 {x : ℚ} (h : x ≤ 99.99) : pyRound x 1 ≤ 100 := by
  unfold pyRound
  have h1 : (roundHalfEven (x * 10 ^ 1) : ℚ) ≤ x * 10 ^ 1 + 1 :=
    roundHalfEven_cast_le_add_one _
  have h2 : roundHalfEven (x * 10 ^ 1) ≤ 1000 := by
    have h3 : (roundHalfEven (x * 10 ^ 1) : ℚ) < 1001 := by
      have hx : x * 10 ^ 1 ≤ 999.9 := by nlinarith
      linarith
    have h4 : roundHalfEven (x * 10 ^ 1) < 1001 := by exact_mod_cast h3
    omega
  have h5 : (roundHalfEven (x * 10 ^ 1) : ℚ) ≤ 1000 := by exact_mod_cast h2
  rw [div_le_iff₀ (by positivity)]
  calc (roundHalfEven (x * 10 ^ 1) : ℚ) ≤ 1000 := h5
    _ = 100 * 10 ^ 1 := by norm_num

theorem compression_score_bounds (cfg : Config) (t : ℚ) :
    0 ≤ compression_score cfg t ∧ compression_score cfg t ≤ 33.33 :=
  ⟨le_max_left _ _, max_le (by norm_num) (min_le_left _ _)⟩

theorem rsi_score_bounds (cfg : Config) (a : ℚ) :
    0 ≤ rsi_score cfg a ∧ rsi_score cfg a ≤ 33.33 :=
  ⟨le_max_left _ _, max_le (by norm_num) (min_le_left _ _)⟩

theorem duration_score_bounds (cfg : Config) (c : ℕ) :
    0 ≤ duration_score cfg c ∧ duration_score cfg c ≤ 33.33 :=
  ⟨le_max_left _ _, max_le (by norm_num) (min_le_left _ _)⟩

/-! ## C7 — insufficient data returns an empty list -/

/-- C7: with fewer than `min_candle_count + 1` candles, before or after the
momentum-warm-up trimming, `detect_zones` returns the empty zone list (the
function is total, so no exception is possible). -/
theorem insufficient_data_empty (cfg : Config) (ticker : String)
    (df : List Candle)
    (h : df.length < cfg.min_candle_count + 1 ∨
      (scan_rows cfg df).length < cfg.min_candle_count + 1) :
    detect_zones cfg ticker df = [] := by
  unfold detect_zones
  rcases h with h | h
  · rw [if_pos h]
  · by_cases h2 : df.length < cfg.min_candle_count + 1
    · rw [if_pos h2]
    · rw [if_neg h2, if_pos h]

/-- C7 witness: three candles with `min_candle_count = 4` yield `[]`. -/
theorem insufficient_data_empty_witness :
    detect_zones worked_config "TEST" three_candles = [] :=
  insufficient_data_empty worked_config "TEST" three_candles
    (Or.inl (by decide))

/-! ## C1 — break finalizes as completed and re-tests the same candle -/

/-- C1: when the scanner is InZone at candle `i` and the extension test
(`zone_ok`: `body_ok ∧ link_ok ∧ rsi_ok ∧ tentativeRange ≤ max`) fails,
the candidate is finalized with status `"completed"` subject to the
minimum-candle-count and score gates (`emit_zone`/`finalize_zone`), and the
same candle is immediately re-tested with `body_ok ∧ rsi_ok` only: if it
passes, the new pending candidate is exactly the one-candle seed at `i`;
otherwise there is no pending candidate. -/
theorem zone_break_restart_same_candle (cfg : Config) (ticker : String)
    (rows : List Row) (st : ScanState) (i : ℕ) (zd : ZoneData)
    (hin : st.zone_data = some zd)
    (hfail : zone_ok cfg zd rows i = false) :
    (scanStep cfg ticker rows st i).zones =
      emit_zone cfg st.zones (finalize_zone cfg ticker zd rows "completed") ∧
    (scanStep cfg ticker rows st i).zone_data =
      (if body_ok cfg rows i && rsi_ok cfg rows i then
        some (start_candidate rows i)
      else none) := by
  obtain ⟨zs, od⟩ := st
  simp only at hin
  subst hin
  simp only [scanStep, hfail, Bool.false_eq_true, if_false]
  by_cases h : (body_ok cfg rows i && rsi_ok cfg rows i) = true <;> simp [h]

attribute [local semireducible] Rat.add Rat.mul Rat.inv Rat.sub Rat.ofScientific in
/-- C1 witness: a one-candle candidate at row 0 of `break_rows` is broken by
row 1 (link jump of 100%), and row 1 immediately seeds the new candidate. -/
theorem zone_break_restart_same_candle_witness :
    (scanStep worked_config "T" break_rows ⟨[], some break_cand⟩ 1).zones =
      emit_zone worked_config []
        (finalize_zone worked_config "T" break_cand break_rows "completed") ∧
    (scanStep worked_config "T" break_rows ⟨[], some break_cand⟩ 1).zone_data =
      (if body_ok worked_config break_rows 1 && rsi_ok worked_config break_rows 1
        then some (start_candidate break_rows 1) else none) :=
  zone_break_restart_same_candle worked_config "T" break_rows
    ⟨[], some break_cand⟩ 1 break_cand rfl (by decide)

/-! ## C6 — the minimum-candle-count boundary -/

/-- C6: a finalized candidate with exactly `min_candle_count` member candles
is not rejected by the count gate, and is retained in the output whenever
its score clears `min_score`; a candidate with `min_candle_count - 1`
member candles is rejected (returns `none`) regardless of any score. -/
theorem min_candle_boundary (cfg : Config) (ticker : String) (zd zd' : ZoneData)
    (rows : List Row) (status : String) (zs : List Zone)
    (hmin : 0 < cfg.min_candle_count) :
    (zd.candles.length = cfg.min_candle_count →
      ∃ z, finalize_zone cfg ticker zd rows status = some z ∧
        (cfg.min_score ≤ z.score →
          emit_zone cfg zs (finalize_zone cfg ticker zd rows status) =
            zs ++ [z])) ∧
    (zd'.candles.length = cfg.min_candle_count - 1 →
      finalize_zone cfg ticker zd' rows status = none) := by
  constructor
  · intro hlen
    unfold finalize_zone
    rw [if_neg (by omega)]
    refine ⟨_, rfl, fun hs => ?_⟩
    simp only [emit_zone, if_pos hs]
  · intro hlen
    unfold finalize_zone
    rw [if_pos (by omega)]

/-- C6 witness: with the worked configuration (`min_candle_count = 4`), the
four-candle candidate over flat rows is finalized and retained, the
three-candle candidate is rejected. -/
theorem min_candle_boundary_witness :
    (four_cand.candles.length = worked_config.min_candle_count →
      ∃ z, finalize_zone worked_config "T" four_cand flat_rows "completed" =
          some z ∧
        (worked_config.min_score ≤ z.score →
          emit_zone worked_config []
              (finalize_zone worked_config "T" four_cand flat_rows "completed") =
            [] ++ [z])) ∧
    (three_cand.candles.length = worked_config.min_candle_count - 1 →
      finalize_zone worked_config "T" three_cand flat_rows "completed" = none) :=
  min_candle_boundary worked_config "T" four_cand three_cand flat_rows
    "completed" [] (by decide)

/-! ## C10 — reported fields are rounded; the gate compares the rounded score -/

/-- C10: every zone built by `_finalize_zone` reports `totalRangePercent` as
the raw cumulative range rounded to 2 decimals, `averageMomentum` as the raw
mean of the member momentum values rounded to 1 decimal, and `score` as the
raw total score rounded to 1 decimal; the retention gate compares that
already-rounded score with `min_score`. -/
theorem zone_rounding_fields (cfg : Config) (ticker : String) (zd : ZoneData)
    (rows : List Row) (status : String) (z : Zone)
    (h : finalize_zone cfg ticker zd rows status = some z) :
    z.total_diff_percent = pyRound (raw_total_diff_percent zd) 2 ∧
    z.avg_rsi = pyRound (raw_avg_rsi zd) 1 ∧
    z.score = pyRound (compression_score cfg (raw_total_diff_percent zd) +
      rsi_score cfg (raw_avg_rsi zd) +
      duration_score cfg zd.candles.length) 1 ∧
    ∀ zs, emit_zone cfg zs (some z) =
      if cfg.min_score ≤ z.score then zs ++ [z] else zs := by
  simp only [finalize_zone] at h
  split_ifs at h
  rw [Option.some.injEq] at h
  subst h
  exact ⟨rfl, rfl, rfl, fun zs => rfl⟩

attribute [local semireducible] Rat.add Rat.mul Rat.inv Rat.sub Rat.ofScientific in
/-- C10 witness: the four-candle flat candidate's zone carries the rounded
fields. -/
theorem zone_rounding_fields_witness :
    ((finalize_zone worked_config "T" four_cand flat_rows "completed").getD
        default).total_diff_percent =
      pyRound (raw_total_diff_percent four_cand) 2 ∧
    ((finalize_zone worked_config "T" four_cand flat_rows "completed").getD
        default).avg_rsi = pyRound (raw_avg_rsi four_cand) 1 ∧
    ((finalize_zone worked_config "T" four_cand flat_rows "completed").getD
        default).score =
      pyRound (compression_score worked_config (raw_total_diff_percent four_cand) +
        rsi_score worked_config (raw_avg_rsi four_cand) +
        duration_score worked_config four_cand.candles.length) 1 ∧
    ∀ zs, emit_zone worked_config zs
        (some ((finalize_zone worked_config "T" four_cand flat_rows
          "completed").getD default)) =
      if worked_config.min_score ≤
          ((finalize_zone worked_config "T" four_cand flat_rows
            "completed").getD default).score then
        zs ++ [(finalize_zone worked_config "T" four_cand flat_rows
          "completed").getD default]
      else zs :=
  zone_rounding_fields worked_config "T" four_cand flat_rows "completed"
    ((finalize_zone worked_config "T" four_cand flat_rows "completed").getD
      default) (by decide)

/-! ## C8 — monotonicity of the compression sub-score -/

attribute [local semireducible] Rat.add Rat.mul Rat.inv Rat.sub Rat.ofScientific in
/-- C8 counterexample: under `inverted_config` the scorer precondition as the
spec states it (`maxTotalZoneDiffPct ≠ scoreCompressionFloorPct`) holds, yet
for `t1 = 1 ≤ t2 = 3` the compression sub-score at `t1` (which is `0`) is
NOT greater than or equal to the sub-score at `t2` (which is `8.3325`):
with a negative denominator the interpolation is increasing, so the claim
fails as stated. -/
theorem compression_monotonic_counterexample :
    inverted_config.max_total_zone_diff ≠ inverted_config.score_diff_min ∧
    (1 : ℚ) ≤ 3 ∧
    ¬ compression_score inverted_config 3 ≤ compression_score inverted_config 1 := by
  decide

/-- C8 (amended): when additionally `scoreCompressionFloorPct <
maxTotalZoneDiffPct` (positive denominator), the compression sub-score is
antitone in `totalRangePercent`: decreasing the range never decreases the
sub-score. -/
theorem compression_antitone_of_floor_lt_max (cfg : Config) (t1 t2 : ℚ)
    (hcfg : cfg.score_diff_min < cfg.max_total_zone_diff) (h : t1 ≤ t2) :
    compression_score cfg t2 ≤ compression_score cfg t1 := by
  unfold compression_score
  have hD : 0 < cfg.max_total_zone_diff - cfg.score_diff_min := by linarith
  have hdiv :
      (cfg.max_total_zone_diff - t2) /
          (cfg.max_total_zone_diff - cfg.score_diff_min) ≤
        (cfg.max_total_zone_diff - t1) /
          (cfg.max_total_zone_diff - cfg.score_diff_min) := by
    gcongr
  have hmul := mul_le_mul_of_nonneg_left hdiv (by norm_num : (0:ℚ) ≤ 33.33)
  exact max_le_max le_rfl (min_le_min le_rfl hmul)

attribute [local semireducible] Rat.add Rat.mul Rat.inv Rat.sub Rat.ofScientific in
/-- C8 witness: under the worked configuration (floor 2 < max 6), the
sub-score at range 3 is at most the sub-score at range 1. -/
theorem compression_antitone_of_floor_lt_max_witness :
    compression_score worked_config 3 ≤ compression_score worked_config 1 :=
  compression_antitone_of_floor_lt_max worked_config 1 3 (by decide) (by decide)

/-! ## C2 — momentum warm-up length -/

attribute [local semireducible] Rat.add Rat.mul Rat.inv Rat.sub Rat.ofScientific in
/-- C2 counterexample: with period `N = 2`, the momentum value at index
`1 < N` is already the defined number `0`, not undefined — `pandas`
`fillna(0)` fabricates `gain[0] = loss[0] = 0` without a genuine
predecessor close, so the window is full at index `N - 1`, refuting
"undefined for exactly the first N candles". -/
theorem rsi_warmup_counterexample :
    (calculate_rsi worked_closes 2).getD 1 none = some 0 ∧
    (calculate_rsi worked_closes 2).getD 1 none ≠ none := by
  decide

/-- C2 (amended): the momentum value at index `i` is defined iff the rolling
window is full at `i`, which happens from index `period - 1` on (not
`period`), and the `0/0` windows are additionally undefined: for
`i < closes.length`, `RSI[i] ≠ NaN ↔ period ≤ i + 1 ∧ ¬(avgGain = 0 ∧
avgLoss = 0)`.  Hence warm-up trimming drops exactly the first `period - 1`
candles (absent additional `gain = loss = 0` windows). -/
theorem rsi_defined_iff_window_full (closes : List ℚ) (period i : ℕ)
    (hi : i < closes.length) :
    (calculate_rsi closes period).getD i none ≠ none ↔
      period ≤ i + 1 ∧
        ¬(avg_gain_at closes period i = 0 ∧ avg_loss_at closes period i = 0) := by
  rw [calculate_rsi_getD closes period i hi]
  simp only [rsi_at]
  split_ifs with h1 h2 h3
  · simp
    omega
  · simp [h2, h3]
  · simp [h3]
    omega
  · simp [h2]
    omega

attribute [local semireducible] Rat.add Rat.mul Rat.inv Rat.sub Rat.ofScientific in
/-- C2 witness: at index 2 with period 2 the value is defined and the
window is not `0/0`. -/
theorem rsi_defined_iff_window_full_witness :
    (calculate_rsi [(101 : ℚ), 100, 101] 2).getD 2 none ≠ none ↔
      2 ≤ 2 + 1 ∧
        ¬(avg_gain_at [(101 : ℚ), 100, 101] 2 2 = 0 ∧
          avg_loss_at [(101 : ℚ), 100, 101] 2 2 = 0) :=
  rsi_defined_iff_window_full [(101 : ℚ), 100, 101] 2 2 (by decide)

/-! ## C5 — saturation at 100 and the 0/0 drop -/

/-- C5: with a full window, if the average loss is `0` and the average gain
is positive, the momentum value saturates at exactly `100` (`pandas`
division by zero yields `+inf` and `100 - 100/(1 + inf) = 100`); if both
averages are `0` the value is undefined (`NaN`); and the working rows of
the scan are exactly the candles whose momentum value is defined — the
undefined ones are dropped before scanning, never given a numeric
momentum. -/
theorem rsi_saturation_and_nan_drop (closes : List ℚ) (period i : ℕ)
    (cfg : Config) (df : List Candle)
    (hwin : period ≤ i + 1) (hloss : avg_loss_at closes period i = 0) :
    (0 < avg_gain_at closes period i → rsi_at closes period i = some 100) ∧
    (avg_gain_at closes period i = 0 → rsi_at closes period i = none) ∧
    (scan_rows cfg df).length =
      ((List.range df.length).filter fun j =>
        (rsi_at (df.map Candle.Close) cfg.rsi_length j).isSome).length := by
  refine ⟨fun hg => ?_, fun hg => ?_, ?_⟩
  · simp only [rsi_at]
    rw [if_neg (by omega : ¬ i + 1 < period)]
    rw [if_pos hloss, if_neg hg.ne']
  · simp only [rsi_at]
    rw [if_neg (by omega : ¬ i + 1 < period)]
    rw [if_pos hloss, if_pos hg]
  · unfold scan_rows
    exact length_filterMap_option_map _ _ _

attribute [local semireducible] Rat.add Rat.mul Rat.inv Rat.sub Rat.ofScientific in
/-- C5 witness: closes `100, 100, 101` with period 2 at index 2 give average
loss `0` and average gain `1/2 > 0`; the drop-count identity is checked on
the worked input. -/
theorem rsi_saturation_and_nan_drop_witness :
    (0 < avg_gain_at [(100 : ℚ), 100, 101] 2 2 →
      rsi_at [(100 : ℚ), 100, 101] 2 2 = some 100) ∧
    (avg_gain_at [(100 : ℚ), 100, 101] 2 2 = 0 →
      rsi_at [(100 : ℚ), 100, 101] 2 2 = none) ∧
    (scan_rows worked_config worked_input).length =
      ((List.range worked_input.length).filter fun j =>
        (rsi_at (worked_input.map Candle.Close)
          worked_config.rsi_length j).isSome).length :=
  rsi_saturation_and_nan_drop [(100 : ℚ), 100, 101] 2 2 worked_config
    worked_input (by decide) (by decide)

/-! ## C3 — the worked scenario -/

attribute [local semireducible] Rat.add Rat.mul Rat.inv Rat.sub Rat.ofScientific in
/-- C3 counterexample: on the worked input the detected zone has
`candleCount = 6` and `score = 54.2`, not `candleCount = 5` and
`score = 52.1` as claimed — because the momentum warm-up drops one candle,
not two (see C2). -/
theorem worked_scenario_counterexample :
    (detect_zones worked_config "T" worked_input).map Zone.candle_count ≠ [5] ∧
    (detect_zones worked_config "T" worked_input).map Zone.score ≠ [52.1] := by
  decide

attribute [local semireducible] Rat.add Rat.mul Rat.inv Rat.sub Rat.ofScientific in
/-- C3 (amended): on the worked input, momentum is undefined for the first
candle only, equals `0` at the second and exactly `50` for the remaining
six; detection returns exactly one zone with `candleCount = 6`,
`totalRangePercent = 1.0`, `averageMomentum = 50.0`, `score = 54.2`,
`status = active`. -/
theorem worked_scenario_actual :
    calculate_rsi (worked_input.map Candle.Close) 2 =
      [none, some 0, some 50, some 50, some 50, some 50, some 50, some 50] ∧
    detect_zones worked_config "T" worked_input =
      [{ ticker := "T", start_date := 2, end_date := 7, candle_count := 6,
         score := 54.2, total_diff_percent := 1, avg_rsi := 50,
         highest_body := 101, lowest_body := 100, status := "active" }] := by
  decide

/-! ## C4 — invariants of every emitted zone -/

theorem finalize_zone_good (cfg : Config) (ticker : String) (zd : ZoneData)
    (rows : List Row) (status : String) (z : Zone)
    (hc : CandGood zd) (h : finalize_zone cfg ticker zd rows status = some z) :
    ZoneGood cfg z := by
  obtain ⟨hpos, hord⟩ := hc
  simp only [finalize_zone] at h
  split_ifs at h with hcount
  rw [Option.some.injEq] at h
  subst h
  refine ⟨by simpa using Nat.le_of_not_lt hcount, ?_, ?_, ?_, hord⟩
  · apply pyRound_nonneg
    have c1 := (compression_score_bounds cfg (raw_total_diff_percent zd)).1
    have c2 := (rsi_score_bounds cfg (raw_avg_rsi zd)).1
    have c3 := (duration_score_bounds cfg zd.candles.length).1
    linarith
  · apply pyRound_le_100
    have c1 := (compression_score_bounds cfg (raw_total_diff_percent zd)).2
    have c2 := (rsi_score_bounds cfg (raw_avg_rsi zd)).2
    have c3 := (duration_score_bounds cfg zd.candles.length).2
    linarith
  · apply pyRound_nonneg
    unfold raw_total_diff_percent
    rw [if_pos hpos.ne']
    exact mul_nonneg (div_nonneg (sub_nonneg.mpr hord) hpos.le) (by norm_num)

theorem emit_zone_good (cfg : Config) (zs : List Zone) (oz : Option Zone)
    (hzs : ∀ z ∈ zs, ZoneGood cfg z) (hoz : ∀ z, oz = some z → ZoneGood cfg z) :
    ∀ z ∈ emit_zone cfg zs oz, ZoneGood cfg z := by
  intro z hz
  cases oz with
  | none => exact hzs z hz
  | some w =>
      simp only [emit_zone] at hz
      split_ifs at hz
      · rcases List.mem_append.mp hz with h | h
        · exact hzs z h
        · rw [List.mem_singleton] at h
          subst h
          exact hoz z rfl
      · exact hzs z hz

theorem scan_rows_good (cfg : Config) (df : List Candle)
    (hpos : ∀ c ∈ df, 0 < c.Open ∧ 0 < c.Close) :
    ∀ r ∈ scan_rows cfg df, 0 < r.BodyLow ∧ r.BodyLow ≤ r.BodyHigh := by
  intro r hr
  unfold scan_rows at hr
  rw [List.mem_filterMap] at hr
  obtain ⟨i, hi, hmap⟩ := hr
  rw [List.mem_range] at hi
  rw [Option.map_eq_some'] at hmap
  obtain ⟨v, hv, hre⟩ := hmap
  subst hre
  have hc : df.getD i ⟨0, 0, 0, 0, 0, 0⟩ ∈ df := by
    rw [List.getD_eq_getElem?_getD, List.getElem?_eq_getElem hi]
    exact List.getElem_mem hi
  obtain ⟨ho, hcl⟩ := hpos _ hc
  exact ⟨lt_min ho hcl, min_le_max⟩

theorem scanStep_good (cfg : Config) (ticker : String) (rows : List Row)
    (st : ScanState) (i : ℕ)
    (hrows : ∀ r ∈ rows, 0 < r.BodyLow ∧ r.BodyLow ≤ r.BodyHigh)
    (hi : i < rows.length) (hst : StateGood cfg st) :
    StateGood cfg (scanStep cfg ticker rows st i) := by
  have hcur : 0 < (rows.getD i default).BodyLow ∧
      (rows.getD i default).BodyLow ≤ (rows.getD i default).BodyHigh := by
    apply hrows
    rw [List.getD_eq_getElem?_getD, List.getElem?_eq_getElem hi]
    exact List.getElem_mem hi
  obtain ⟨zs, od⟩ := st
  obtain ⟨hzs, hod⟩ := hst
  cases od with
  | none =>
      simp only [scanStep]
      split_ifs with h
      · refine ⟨hzs, fun zd hzd => ?_⟩
        rw [Option.some.injEq] at hzd
        subst hzd
        exact ⟨hcur.1, hcur.2⟩
      · exact ⟨hzs, hod⟩
  | some zd =>
      have hzd := hod zd rfl
      simp only [scanStep]
      split_ifs with hok hstart
      · refine ⟨hzs, fun zd' h' => ?_⟩
        rw [Option.some.injEq] at h'
        subst h'
        refine ⟨lt_min hzd.1 hcur.1, ?_⟩
        calc min zd.lowest_body (rows.getD i default).BodyLow ≤ zd.lowest_body :=
              min_le_left _ _
          _ ≤ zd.highest_body := hzd.2
          _ ≤ max zd.highest_body (rows.getD i default).BodyHigh := le_max_left _ _
      · refine ⟨emit_zone_good cfg zs _ hzs
          (fun w hw => finalize_zone_good cfg ticker zd rows "completed" w hzd hw),
          fun zd' h' => ?_⟩
        rw [Option.some.injEq] at h'
        subst h'
        exact ⟨hcur.1, hcur.2⟩
      · exact ⟨emit_zone_good cfg zs _ hzs
          (fun w hw => finalize_zone_good cfg ticker zd rows "completed" w hzd hw),
          fun zd' h' => by cases h'⟩

theorem foldl_scanStep_good (cfg : Config) (ticker : String) (rows : List Row)
    (hrows : ∀ r ∈ rows, 0 < r.BodyLow ∧ r.BodyLow ≤ r.BodyHigh) :
    ∀ (l : List ℕ) (st : ScanState), (∀ i ∈ l, i < rows.length) →
      StateGood cfg st →
      StateGood cfg (l.foldl (scanStep cfg ticker rows) st) := by
  intro l
  induction l with
  | nil => exact fun st _ h => h
  | cons a l ih =>
      intro st hl h
      rw [List.foldl_cons]
      exact ih _ (fun i hi => hl i (by simp [hi]))
        (scanStep_good cfg ticker rows st a hrows (hl a (by simp)) h)

/-- C4: with positive open/close prices, every zone in the returned list has
at least `min_candle_count` member candles (a candidate violating this is
discarded by `finalize_zone` and never emitted), a score within `[0, 100]`,
a nonnegative `totalRangePercent` and an ordered body boundary. -/
theorem emitted_zone_invariants (cfg : Config) (ticker : String)
    (df : List Candle) (hpos : ∀ c ∈ df, 0 < c.Open ∧ 0 < c.Close) :
    ∀ z ∈ detect_zones cfg ticker df,
      cfg.min_candle_count ≤ z.candle_count ∧ 0 ≤ z.score ∧ z.score ≤ 100 ∧
        0 ≤ z.total_diff_percent ∧ z.lowest_body ≤ z.highest_body := by
  intro z hz
  have hrows := scan_rows_good cfg df hpos
  simp only [detect_zones] at hz
  split_ifs at hz with h1 h2
  · simp at hz
  · simp at hz
  · have hfold := foldl_scanStep_good cfg ticker (scan_rows cfg df) hrows
      (List.range' 1 ((scan_rows cfg df).length - 1)) ⟨[], none⟩
      (fun i hi => by rw [List.mem_range'_1] at hi; omega)
      ⟨fun w hw => by simp at hw, fun zd h => by cases h⟩
    rcases hfd : ((List.range' 1 ((scan_rows cfg df).length - 1)).foldl
        (scanStep cfg ticker (scan_rows cfg df)) ⟨[], none⟩).zone_data with _ | zd
    · rw [hfd] at hz
      exact hfold.1 z hz
    · rw [hfd] at hz
      exact emit_zone_good cfg _ _ hfold.1
        (fun w hw => finalize_zone_good cfg ticker zd _ "active" w
          (hfold.2 zd hfd) hw) z hz

attribute [local semireducible] Rat.add Rat.mul Rat.inv Rat.sub Rat.ofScientific in
/-- C4 witness: the invariant holds of the zone detected on the worked
input. -/
theorem emitted_zone_invariants_witness :
    worked_config.min_candle_count ≤
        ((detect_zones worked_config "T" worked_input).getD 0
          default).candle_count ∧
      0 ≤ ((detect_zones worked_config "T" worked_input).getD 0 default).score ∧
        ((detect_zones worked_config "T" worked_input).getD 0 default).score ≤
            100 ∧
          0 ≤ ((detect_zones worked_config "T" worked_input).getD 0
              default).total_diff_percent ∧
            ((detect_zones worked_config "T" worked_input).getD 0
                default).lowest_body ≤
              ((detect_zones worked_config "T" worked_input).getD 0
                default).highest_body :=
  emitted_zone_invariants worked_config "T" worked_input (by decide)
    ((detect_zones worked_config "T" worked_input).getD 0 default) (by decide)

/-! ## C9 — no ordering validation: the scan never reads dates -/

theorem getD_map_row_with_date (f : ℤ → ℤ) (rows : List Row) (i : ℕ) :
    ((rows.map (row_with_date f)).getD i default).Open =
        (rows.getD i default).Open ∧
      ((rows.map (row_with_date f)).getD i default).Close =
          (rows.getD i default).Close ∧
        ((rows.map (row_with_date f)).getD i default).RSI =
            (rows.getD i default).RSI ∧
          ((rows.map (row_with_date f)).getD i default).BodyLow =
              (rows.getD i default).BodyLow ∧
            ((rows.map (row_with_date f)).getD i default).BodyHigh =
              (rows.getD i default).BodyHigh := by
  rcases Nat.lt_or_ge i rows.length with h | h
  · rw [List.getD_eq_getElem?_getD, List.getElem?_map,
      List.getElem?_eq_getElem h, List.getD_eq_getElem?_getD,
      List.getElem?_eq_getElem h]
    exact ⟨rfl, rfl, rfl, rfl, rfl⟩
  · rw [List.getD_eq_getElem?_getD, List.getElem?_eq_none (by simpa using h),
      List.getD_eq_getElem?_getD, List.getElem?_eq_none h]
    exact ⟨rfl, rfl, rfl, rfl, rfl⟩

theorem getD_map_row_with_date_Date (f : ℤ → ℤ) (rows : List Row) (i : ℕ)
    (h : i < rows.length) :
    ((rows.map (row_with_date f)).getD i default).Date =
      f ((rows.getD i default).Date) := by
  rw [List.getD_eq_getElem?_getD, List.getElem?_map,
    List.getElem?_eq_getElem h, List.getD_eq_getElem?_getD,
    List.getElem?_eq_getElem h]
  rfl

theorem body_diff_percent_map (f : ℤ → ℤ) (rows : List Row) (i : ℕ) :
    body_diff_percent (rows.map (row_with_date f)) i =
      body_diff_percent rows i := by
  obtain ⟨hO, hC, hR, hL, hH⟩ := getD_map_row_with_date f rows i
  simp only [body_diff_percent]
  rw [hO, hL, hH]

theorem link_diff_percent_map (f : ℤ → ℤ) (rows : List Row) (i : ℕ) :
    link_diff_percent (rows.map (row_with_date f)) i =
      link_diff_percent rows i := by
  obtain ⟨hO, hC, hR, hL, hH⟩ := getD_map_row_with_date f rows i
  obtain ⟨hO', hC', hR', hL', hH'⟩ := getD_map_row_with_date f rows (i - 1)
  simp only [link_diff_percent]
  rw [hC, hC']

theorem rsi_ok_map (cfg : Config) (f : ℤ → ℤ) (rows : List Row) (i : ℕ) :
    rsi_ok cfg (rows.map (row_with_date f)) i = rsi_ok cfg rows i := by
  obtain ⟨hO, hC, hR, hL, hH⟩ := getD_map_row_with_date f rows i
  simp only [rsi_ok]
  rw [hR]

theorem body_ok_map (cfg : Config) (f : ℤ → ℤ) (rows : List Row) (i : ℕ) :
    body_ok cfg (rows.map (row_with_date f)) i = body_ok cfg rows i := by
  simp only [body_ok]
  rw [body_diff_percent_map]

theorem link_ok_map (cfg : Config) (f : ℤ → ℤ) (rows : List Row) (i : ℕ) :
    link_ok cfg (rows.map (row_with_date f)) i = link_ok cfg rows i := by
  simp only [link_ok]
  rw [link_diff_percent_map]

theorem tentative_range_percent_map (zd : ZoneData) (f : ℤ → ℤ)
    (rows : List Row) (i : ℕ) :
    tentative_range_percent zd (rows.map (row_with_date f)) i =
      tentative_range_percent zd rows i := by
  obtain ⟨hO, hC, hR, hL, hH⟩ := getD_map_row_with_date f rows i
  simp only [tentative_range_percent]
  rw [hL, hH]

theorem zone_ok_map (cfg : Config) (zd : ZoneData) (f : ℤ → ℤ)
    (rows : List Row) (i : ℕ) :
    zone_ok cfg zd (rows.map (row_with_date f)) i = zone_ok cfg zd rows i := by
  simp only [zone_ok]
  rw [body_ok_map, link_ok_map, rsi_ok_map, tentative_range_percent_map]

theorem start_candidate_map (f : ℤ → ℤ) (rows : List Row) (i : ℕ) :
    start_candidate (rows.map (row_with_date f)) i = start_candidate rows i := by
  obtain ⟨hO, hC, hR, hL, hH⟩ := getD_map_row_with_date f rows i
  simp only [start_candidate]
  rw [hL, hH, hR]

theorem extend_candidate_map (zd : ZoneData) (f : ℤ → ℤ) (rows : List Row)
    (i : ℕ) :
    extend_candidate zd (rows.map (row_with_date f)) i =
      extend_candidate zd rows i := by
  obtain ⟨hO, hC, hR, hL, hH⟩ := getD_map_row_with_date f rows i
  simp only [extend_candidate]
  rw [hL, hH, hR]

theorem emit_zone_map_dates (cfg : Config) (f : ℤ → ℤ) (zs : List Zone)
    (oz : Option Zone) :
    emit_zone cfg (zs.map (zone_with_dates f)) (oz.map (zone_with_dates f)) =
      (emit_zone cfg zs oz).map (zone_with_dates f) := by
  cases oz with
  | none => rfl
  | some z =>
      simp only [Option.map_some', emit_zone]
      have hs : (zone_with_dates f z).score = z.score := rfl
      rw [hs]
      split_ifs
      · rw [List.map_append]
        rfl
      · rfl

theorem finalize_zone_map_dates (cfg : Config) (ticker : String)
    (zd : ZoneData) (rows : List Row) (status : String) (f : ℤ → ℤ)
    (h1 : zd.start_idx < rows.length)
    (h2 : zd.candles.getLast?.getD 0 < rows.length) :
    finalize_zone cfg ticker zd (rows.map (row_with_date f)) status =
      (finalize_zone cfg ticker zd rows status).map (zone_with_dates f) := by
  simp only [finalize_zone]
  split_ifs
  · rfl
  · simp only [Option.map_some']
    rw [getD_map_row_with_date_Date f rows zd.start_idx h1,
      getD_map_row_with_date_Date f rows (zd.candles.getLast?.getD 0) h2]
    rfl

theorem scanStep_map_dates (cfg : Config) (ticker : String) (rows : List Row)
    (f : ℤ → ℤ) (st : ScanState) (i : ℕ) (hi : i < rows.length)
    (hidx : IdxGood rows st.zone_data) :
    scanStep cfg ticker (rows.map (row_with_date f))
        ⟨st.zones.map (zone_with_dates f), st.zone_data⟩ i =
      ⟨(scanStep cfg ticker rows st i).zones.map (zone_with_dates f),
        (scanStep cfg ticker rows st i).zone_data⟩ ∧
    IdxGood rows (scanStep cfg ticker rows st i).zone_data := by
  obtain ⟨zs, od⟩ := st
  cases od with
  | none =>
      simp only [scanStep, body_ok_map, rsi_ok_map, start_candidate_map]
      split_ifs with h
      · refine ⟨rfl, fun zd hzd => ?_⟩
        rw [Option.some.injEq] at hzd
        subst hzd
        simp only [start_candidate]
        exact ⟨hi, by simpa using hi⟩
      · exact ⟨rfl, fun zd h' => by cases h'⟩
  | some zd =>
      have hb := hidx zd rfl
      simp only [scanStep, body_ok_map, rsi_ok_map, zone_ok_map,
        start_candidate_map, extend_candidate_map,
        finalize_zone_map_dates cfg ticker zd rows _ f hb.1 hb.2,
        emit_zone_map_dates]
      split_ifs with hok hstart
      · refine ⟨rfl, fun zd' h' => ?_⟩
        rw [Option.some.injEq] at h'
        subst h'
        simp only [extend_candidate]
        refine ⟨hb.1, ?_⟩
        rw [List.getLast?_concat]
        simpa using hi
      · refine ⟨rfl, fun zd' h' => ?_⟩
        rw [Option.some.injEq] at h'
        subst h'
        simp only [start_candidate]
        exact ⟨hi, by simpa using hi⟩
      · exact ⟨rfl, fun zd' h' => by cases h'⟩

theorem foldl_scanStep_map_dates (cfg : Config) (ticker : String)
    (rows : List Row) (f : ℤ → ℤ) :
    ∀ (l : List ℕ) (st : ScanState), (∀ i ∈ l, i < rows.length) →
      IdxGood rows st.zone_data →
      (l.foldl (scanStep cfg ticker (rows.map (row_with_date f)))
          ⟨st.zones.map (zone_with_dates f), st.zone_data⟩ =
        ⟨(l.foldl (scanStep cfg ticker rows) st).zones.map (zone_with_dates f),
          (l.foldl (scanStep cfg ticker rows) st).zone_data⟩) ∧
      IdxGood rows (l.foldl (scanStep cfg ticker rows) st).zone_data := by
  intro l
  induction l with
  | nil => exact fun st _ h => ⟨rfl, h⟩
  | cons a l ih =>
      intro st hl h
      rw [List.foldl_cons, List.foldl_cons]
      obtain ⟨hstep, hidx⟩ :=
        scanStep_map_dates cfg ticker rows f st a (hl a (by simp)) h
      rw [hstep]
      exact ih (scanStep cfg ticker rows st a)
        (fun i hi => hl i (by simp [hi])) hidx

theorem scan_rows_map_dates (cfg : Config) (df : List Candle) (f : ℤ → ℤ) :
    scan_rows cfg (df.map (with_date f)) =
      (scan_rows cfg df).map (row_with_date f) := by
  unfold scan_rows
  rw [List.map_filterMap, List.length_map]
  apply filterMap_congr_mem
  intro i hi
  rw [List.mem_range] at hi
  have hcl : (df.map (with_date f)).map Candle.Close = df.map Candle.Close := by
    rw [List.map_map]
    rfl
  have hc : (df.map (with_date f)).getD i ⟨0, 0, 0, 0, 0, 0⟩ =
      with_date f (df.getD i ⟨0, 0, 0, 0, 0, 0⟩) := by
    rw [List.getD_eq_getElem?_getD, List.getElem?_map,
      List.getElem?_eq_getElem hi, List.getD_eq_getElem?_getD,
      List.getElem?_eq_getElem hi]
    rfl
  rw [hcl, hc]
  cases rsi_at (df.map Candle.Close) cfg.rsi_length i <;> rfl

/-- C9 (amended): the detector performs no ordering validation and never
reads a date except to copy it into the reported zone: for EVERY
reassignment `f` of the candles' dates — ordered or not — the zone list is
the same up to that reassignment of the reported `start_date`/`end_date`.
In particular, out-of-order input silently produces the zone list computed
from the sequence in the order given, with no sorting or repair and no
error. -/
theorem detect_zones_date_oblivious (cfg : Config) (ticker : String)
    (df : List Candle) (f : ℤ → ℤ) :
    detect_zones cfg ticker (df.map (with_date f)) =
      (detect_zones cfg ticker df).map (zone_with_dates f) := by
  simp only [detect_zones]
  rw [scan_rows_map_dates cfg df f]
  simp only [List.length_map]
  split_ifs with h1 h2
  · rfl
  · rfl
  · obtain ⟨heq, hidx⟩ := foldl_scanStep_map_dates cfg ticker
      (scan_rows cfg df) f (List.range' 1 ((scan_rows cfg df).length - 1))
      ⟨[], none⟩ (fun i hi => by rw [List.mem_range'_1] at hi; omega)
      (fun zd h => by cases h)
    simp only [List.map_nil] at heq
    rw [heq]
    rcases hfd : ((List.range' 1 ((scan_rows cfg df).length - 1)).foldl
        (scanStep cfg ticker (scan_rows cfg df)) ⟨[], none⟩).zone_data
      with _ | zd
    · simp only [hfd]
    · simp only [hfd]
      rw [finalize_zone_map_dates cfg ticker zd (scan_rows cfg df) "active" f
        (hidx zd hfd).1 (hidx zd hfd).2, emit_zone_map_dates]

attribute [local semireducible] Rat.add Rat.mul Rat.inv Rat.sub Rat.ofScientific in
/-- C9 counterexample: on `unsorted_input`, whose dates strictly decrease
(so the sequence is not strictly chronologically increasing), detection
does not fail with an error: it silently returns a normal zone list — one
zone whose reported `start_date = 5` is even later than its
`end_date = 0`, the dates having been copied verbatim from the unsorted
input. -/
theorem unsorted_input_no_error_counterexample :
    dates_sorted unsorted_input = false ∧
    detect_zones worked_config "T" unsorted_input =
      [{ ticker := "T", start_date := 5, end_date := 0, candle_count := 6,
         score := 54.2, total_diff_percent := 1, avg_rsi := 50,
         highest_body := 101, lowest_body := 100, status := "active" }] := by
  decide

end BistScanner
